import Mathlib

/- Shallow embedding of the Expression-Evaluator core: the Shunting-Yard
parser (src/common/src/parser.cpp), the postfix (RPN) evaluator
(src/common/src/RPNEvaluator.cpp), the operator catalog
(src/common/inc/ee/operator.hpp) and Integer::factorial
(src/common/src/integer.cpp).

Modelling decisions, recorded once here:
* Integer models boost::multiprecision::cpp_int (arbitrary precision), as Int.
  C++ integer division truncates toward zero, so it is Int.tdiv / Int.tmod.
  Dividing a cpp_int by zero raises a division-by-zero exception
  (std::overflow_error), modelled as the divisionByZero error.
* Real models boost cpp_dec_float, idealized as the rational numbers.
  The transcendental library calls are outside the claims; the one reachable
  real-power call is threaded in as an explicit parameter realPow.
* Variables are shared mutable cells owned by an external symbol table;
  the table is modelled as Env, a map from names to an optional held value,
  and the Variable operand carries only its name.
* Undefined behavior in the source - std::stack::top() on an empty stack, or
  a member call through a null std::shared_ptr after a failed
  dynamic_pointer_cast - is modelled as the distinguished error crash.
* static_cast<unsigned int> of a bignum is modelled only on [0, 2^32);
  out-of-range conversions surface as the error castOutOfRange and no claim
  is settled through them. -/

/-- A concrete value that a Variable cell can hold: the evaluator's
Assignment branch stores only Boolean, Integer or Real copies. -/
inductive Val : Type where
  | integer (i : Int)
  | real (q : ℚ)
  | boolean (b : Bool)
deriving DecidableEq

/-- Operand variants from the source: Integer, Real, Boolean, Variable.
A Variable is a named reference into the external symbol table. -/
inductive Operand : Type where
  | integer (i : Int)
  | real (q : ℚ)
  | boolean (b : Bool)
  | var (name : String)
deriving DecidableEq

/-- View a held value as the operand the evaluator would push for it. -/
def Val.toOperand : Val → Operand
  | .integer i => .integer i
  | .real q => .real q
  | .boolean b => .boolean b

/-- The external symbol table: name to optionally held value (none models an
unassigned Variable, whose value() pointer is null). -/
abbrev Env := String → Option Val

/-- Variable::set through the shared cell: update one name's held value. -/
def envSet (env : Env) (name : String) (v : Val) : Env :=
  fun n => if n = name then some v else env n

/-- The symbol table with every variable unassigned. -/
def emptyEnv : Env := fun _ => none

/-- The operator catalog of operator.hpp. -/
inductive Op : Type where
  | identity | negation | logNot
  | assignment | power
  | addition | subtraction | multiplication | division | modulus
  | logAnd | logOr | nand | nor | xor | xnor
  | equality | inequality | greater | greaterEqual | less | lessEqual
  | factorial
deriving DecidableEq

/-- Precedence ordinals from enum class Precedence in operator.hpp
(MIN = 0, ASSIGNMENT = 1, LOGOR = 2, LOGXOR = 3, LOGAND = 4, BITOR = 5,
BITXOR = 6, BITAND = 7, EQUALITY = 8, RELATIONAL = 9, BITSHIFT = 10,
ADDITIVE = 11, MULTIPLICATIVE = 12, UNARY = 13, POWER = 14, then 15).
Factorial inherits its precedence method from UnaryOperator, so it is 13. -/
def prec : Op → Nat
  | .assignment => 1
  | .logOr | .nor | .xor | .xnor => 2
  | .logAnd | .nand => 4
  | .equality | .inequality => 8
  | .greater | .greaterEqual | .less | .lessEqual => 9
  | .addition | .subtraction => 11
  | .multiplication | .division | .modulus => 12
  | .identity | .negation | .logNot | .factorial => 13
  | .power => 14

/-- The three associativity classes of the Operator class hierarchy. -/
inductive AssocClass : Type where
  | leftAssoc | rightAssoc | nonAssoc
deriving DecidableEq

/-- Class membership from operator.hpp: Power and Assignment derive from
RAssocOperator, the unary and factorial operators from NonAssociative,
every other binary operator from LAssocOperator. -/
def assocOf : Op → AssocClass
  | .power | .assignment => .rightAssoc
  | .identity | .negation | .logNot | .factorial => .nonAssoc
  | _ => .leftAssoc

/-- The function tokens reachable by the claims (function.hpp); the
transcendental one-argument functions are outside every claim and are left
out of the token alphabet. -/
inductive Fn : Type where
  | abs | max | min | pow
deriving DecidableEq

/-- The token variants flowing through parser and evaluator. -/
inductive Token : Type where
  | operand (o : Operand)
  | operator (op : Op)
  | function (f : Fn)
  | leftParen
  | rightParen
  | argSeparator
deriving DecidableEq

/-- is<Operator>(token). -/
def isOperatorTok : Token → Bool
  | .operator _ => true
  | _ => false

/-- is<Function>(token). -/
def isFunctionTok : Token → Bool
  | .function _ => true
  | _ => false

/-- is<LeftParenthesis>(token). -/
def isLeftParenTok : Token → Bool
  | .leftParen => true
  | _ => false

/-- is<Parenthesis>(token): both parenthesis kinds share the base class. -/
def isParenTok : Token → Bool
  | .leftParen => true
  | .rightParen => true
  | _ => false

/-- The parser's error outcomes (parser.cpp throw sites). misplacedSeparator
stands for the message "Mismatched parentheses or misplaced argument
separator" thrown at the ArgumentSeparator site. -/
inductive ParseErr : Type where
  | mismatchedParenthesis
  | misplacedSeparator
  | unknownToken
deriving DecidableEq

/-- The pop test of Parser::parse, line 67 of parser.cpp, written with the
same three disjuncts as the source:
higherPrecedence OR (isLeftAssoc AND equalPrecedence)
OR (isRightAssoc AND higherPrecedence). -/
def stackPopCheck (topOp incoming : Op) : Bool :=
  let isLeftAssocB := decide (assocOf topOp = AssocClass.leftAssoc)
  let isRightAssocB := decide (assocOf topOp = AssocClass.rightAssoc)
  let higherPrecedence := decide (prec topOp > prec incoming)
  let equalPrecedence := decide (prec topOp = prec incoming)
  higherPrecedence || (isLeftAssocB && equalPrecedence) ||
    (isRightAssocB && higherPrecedence)

/-- The while loop of the Operator branch: pop stacked Operator tokens to the
output while stackPopCheck holds; stop at a non-Operator token (a Function or
LeftParenthesis acts as a barrier). Returns (stack, output). -/
def opPopLoop (incoming : Op) : List Token → List Token → List Token × List Token
  | [], output => ([], output)
  | t :: rest, output =>
    match t with
    | .operator topOp =>
      if stackPopCheck topOp incoming then opPopLoop incoming rest (output ++ [t])
      else (.operator topOp :: rest, output)
    | other => (other :: rest, output)

/-- The RightParenthesis loop: pop tokens to the output until a
LeftParenthesis appears; fail with MismatchedParenthesis if the stack empties
first; the LeftParenthesis itself is discarded (popped, not emitted). -/
def popUntilLeftParen : List Token → List Token → Except ParseErr (List Token × List Token)
  | [], _ => .error .mismatchedParenthesis
  | t :: rest, output =>
    if isLeftParenTok t then .ok (rest, output)
    else popUntilLeftParen rest (output ++ [t])

/-- The ArgumentSeparator loop: as popUntilLeftParen, but the LeftParenthesis
stays on the stack, and the failure is the combined mismatched-or-misplaced
message. -/
def popUntilLeftParenKeep : List Token → List Token → Except ParseErr (List Token × List Token)
  | [], _ => .error .misplacedSeparator
  | t :: rest, output =>
    if isLeftParenTok t then .ok (t :: rest, output)
    else popUntilLeftParenKeep rest (output ++ [t])

/-- The end-of-input drain of Parser::parse: pop every remaining entry to the
output, failing with MismatchedParenthesis on any Parenthesis entry. -/
def drainStack : List Token → List Token → Except ParseErr (List Token)
  | [], output => .ok output
  | t :: rest, output =>
    if isParenTok t then .error .mismatchedParenthesis
    else drainStack rest (output ++ [t])

/-- The scan loop of Parser::parse over the remaining input, carrying the
operator stack (head is the top) and the output queue. -/
def parseGo : List Token → List Token → List Token → Except ParseErr (List Token)
  | [], opStack, output => drainStack opStack output
  | t :: ts, opStack, output =>
    match t with
    | .operand o => parseGo ts opStack (output ++ [.operand o])
    | .operator op =>
      match opPopLoop op opStack output with
      | (opStack', output') => parseGo ts (.operator op :: opStack') output'
    | .function f => parseGo ts (.function f :: opStack) output
    | .leftParen => parseGo ts (.leftParen :: opStack) output
    | .rightParen =>
      match popUntilLeftParen opStack output with
      | .error e => .error e
      | .ok (opStack', output') =>
        match opStack' with
        | f :: rest =>
          if isFunctionTok f then parseGo ts rest (output' ++ [f])
          else parseGo ts (f :: rest) output'
        | [] => parseGo ts [] output'
    | .argSeparator =>
      match popUntilLeftParenKeep opStack output with
      | .error e => .error e
      | .ok (opStack', output') => parseGo ts opStack' output'

/-- Parser::parse: scan the infix sequence with an empty operator stack and
output queue, then drain. -/
def parse (infixTokens : List Token) : Except ParseErr (List Token) :=
  parseGo infixTokens [] []

/-- Modelled from the spec: the condition of claim C8, following the spec's
words only, for comparison with the parse function embedded from the source.
Tracks how many unmatched LeftParenthesis entries the operator stack holds;
a RightParenthesis or ArgumentSeparator that arrives with none flags a
mismatch ("empties the operator stack without finding a LeftParenthesis"),
and so does an unmatched LeftParenthesis surviving to the end of input
("a parenthesis token remains on the stack after the whole input"). -/
def specParenMismatch : Nat → List Token → Bool
  | depth, [] => decide (0 < depth)
  | depth, t :: ts =>
    match t with
    | .leftParen => specParenMismatch (depth + 1) ts
    | .rightParen => if depth = 0 then true else specParenMismatch (depth - 1) ts
    | .argSeparator => if depth = 0 then true else specParenMismatch depth ts
    | _ => specParenMismatch depth ts

/-- The evaluator's failure outcomes: one constructor per throw site family of
RPNEvaluator.cpp, plus crash for undefined behavior (top() on an empty
std::stack, or a call through the null result of a failed
dynamic_pointer_cast), plus castOutOfRange for the unmodelled bignum-to-
unsigned conversions outside [0, 2^32). -/
inductive EvalErr : Type where
  | insufficientOperands
  | operandStackEmpty
  | invalidOperandTypeCast
  | crash
  | invalidOperandIdentity
  | invalidOperandNegation
  | uninitializedVariable
  | assignmentToNonVariable
  | unsupportedAssignmentType
  | divisionByZero
  | realDivisionByZero
  | castOutOfRange
  | booleanOperandRequired
  | unsupportedComparison
  | invalidOperandAbs
  | negativeFactorial
  | tooManyOperands
  | unknownToken
deriving DecidableEq

/-- operandStack.top() without a size check: on an empty std::stack this is
undefined behavior, modelled as crash. -/
def popUnchecked : List Operand → Except EvalErr (Operand × List Operand)
  | [] => .error .crash
  | o :: rest => .ok (o, rest)

/-- The two unchecked pops of a binary branch: the first pop is the right
operand, the second the left. -/
def popTwo (stack : List Operand) : Except EvalErr (Operand × Operand × List Operand) :=
  match popUnchecked stack with
  | .error e => .error e
  | .ok (right, s1) =>
    match popUnchecked s1 with
    | .error e => .error e
    | .ok (left, s2) => .ok (left, right, s2)

/-- pop_operand_from_stack<Integer>: explicit emptiness check, then a checked
cast whose failure throws (no crash on this path). -/
def popIntChecked : List Operand → Except EvalErr (Int × List Operand)
  | [] => .error .operandStackEmpty
  | o :: rest =>
    match o with
    | .integer i => .ok (i, rest)
    | _ => .error .invalidOperandTypeCast

/-- The coercion idiom of the mixed branches:
is<Integer>(x) ? Real(convert<Integer>(x)->value()) : convert<Real>(x)->value().
When x is neither Integer nor Real the convert<Real> cast yields a null
pointer and the value() call dereferences it: undefined behavior (crash).
In particular a Variable operand is never read through here. -/
def coerceReal : Operand → Except EvalErr ℚ
  | .integer i => .ok (i : ℚ)
  | .real q => .ok q
  | _ => .error .crash

/-- static_cast<unsigned int> of a bignum; modelled only on [0, 2^32). -/
def toUnsignedInt (x : Int) : Except EvalErr Nat :=
  if 0 ≤ x ∧ x < 2 ^ 32 then .ok x.toNat else .error .castOutOfRange

/-- The shared shape of Addition, Subtraction, Multiplication, Max and Min:
both Integer computes in Integer, any other pair goes through coerceReal on
the left then the right and computes in Real. -/
def promoteArith (f : Int → Int → Int) (g : ℚ → ℚ → ℚ) (left right : Operand) :
    Except EvalErr Operand :=
  match left, right with
  | .integer a, .integer b => .ok (.integer (f a b))
  | _, _ =>
    match coerceReal left with
    | .error e => .error e
    | .ok lq =>
      match coerceReal right with
      | .error e => .error e
      | .ok rq => .ok (.real (g lq rq))

/-- The shared shape of the logical binary branches (And, Or, Nand, Nor, Xor,
Xnor): both operands must cast to Boolean, anything else throws; a Variable
is not read through. -/
def boolBinary (f : Bool → Bool → Bool) (left right : Operand) :
    Except EvalErr Operand :=
  match left, right with
  | .boolean a, .boolean b => .ok (.boolean (f a b))
  | _, _ => .error .booleanOperandRequired

/-- The conditional-expression chain of the Equality, Inequality, Greater,
GreaterEqual, Less and LessEqual branches: Integer with Integer, Real with
Real, Boolean with Boolean, then the two mixed Integer and Real pairs with
the Integer promoted to Real; every other pair (Variables included) throws
the unsupported-operand-types error. -/
def comparisonChain (fi : Int → Int → Bool) (fq : ℚ → ℚ → Bool)
    (fb : Bool → Bool → Bool) (left right : Operand) : Except EvalErr Operand :=
  match left, right with
  | .integer a, .integer b => .ok (.boolean (fi a b))
  | .real a, .real b => .ok (.boolean (fq a b))
  | .boolean a, .boolean b => .ok (.boolean (fb a b))
  | .integer a, .real b => .ok (.boolean (fq (a : ℚ) b))
  | .real a, .integer b => .ok (.boolean (fq a (b : ℚ)))
  | _, _ => .error .unsupportedComparison

/-- Integer::factorial of integer.cpp: negative arguments throw, otherwise
the running product result *= i for i = 1..n (so 0 maps to 1). -/
def integerFactorial (n : Int) : Except EvalErr Int :=
  if n < 0 then .error .negativeFactorial
  else .ok ((List.range n.toNat).foldl (fun (acc : Int) (k : Nat) => acc * ((k : Int) + 1)) 1)

/-- One step of RPNEvaluator::evaluate: dispatch on the token against the
value stack (head is the top) and the symbol table. realPow stands for the
boost real-power routine used by the mixed Power branches. -/
def evalToken (realPow : ℚ → ℚ → ℚ) :
    List Operand × Env → Token → Except EvalErr (List Operand × Env)
  | (stack, env), .operand o => .ok (o :: stack, env)
  | (stack, env), .operator op =>
    match op with
    | .identity =>
      match popUnchecked stack with
      | .error e => .error e
      | .ok (v, rest) =>
        match v with
        | .integer i => .ok (.integer i :: rest, env)
        | .real q => .ok (.real q :: rest, env)
        | _ => .error .invalidOperandIdentity
    | .negation =>
      match popUnchecked stack with
      | .error e => .error e
      | .ok (v, rest) =>
        match v with
        | .integer i => .ok (.integer (-i) :: rest, env)
        | .real q => .ok (.real (-q) :: rest, env)
        | .boolean _ => .error .invalidOperandNegation
        | .var n =>
          match env n with
          | none => .error .uninitializedVariable
          | some _ => .error .invalidOperandNegation
    | .assignment =>
      match popUnchecked stack with
      | .error e => .error e
      | .ok (valueOperand, s1) =>
        match popUnchecked s1 with
        | .error e => .error e
        | .ok (variableOperand, s2) =>
          match variableOperand with
          | .var name =>
            match valueOperand with
            | .boolean b => .ok (.var name :: s2, envSet env name (.boolean b))
            | .integer i => .ok (.var name :: s2, envSet env name (.integer i))
            | .real q => .ok (.var name :: s2, envSet env name (.real q))
            | .var _ => .error .unsupportedAssignmentType
          | _ => .error .assignmentToNonVariable
    | .addition =>
      match popTwo stack with
      | .error e => .error e
      | .ok (left, right, s2) =>
        match promoteArith (fun a b => a + b) (fun a b => a + b) left right with
        | .error e => .error e
        | .ok r => .ok (r :: s2, env)
    | .subtraction =>
      match popTwo stack with
      | .error e => .error e
      | .ok (left, right, s2) =>
        match promoteArith (fun a b => a - b) (fun a b => a - b) left right with
        | .error e => .error e
        | .ok r => .ok (r :: s2, env)
    | .multiplication =>
      match popTwo stack with
      | .error e => .error e
      | .ok (left, right, s2) =>
        match promoteArith (fun a b => a * b) (fun a b => a * b) left right with
        | .error e => .error e
        | .ok r => .ok (r :: s2, env)
    | .division =>
      match popTwo stack with
      | .error e => .error e
      | .ok (left, right, s2) =>
        match left, right with
        | .integer a, .integer b =>
          if b = 0 then .error .divisionByZero
          else .ok (.integer (a.tdiv b) :: s2, env)
        | _, _ =>
          match coerceReal left with
          | .error e => .error e
          | .ok lq =>
            match coerceReal right with
            | .error e => .error e
            | .ok rq =>
              if rq = 0 then .error .divisionByZero
              else .ok (.real (lq / rq) :: s2, env)
    | .modulus =>
      match popIntChecked stack with
      | .error e => .error e
      | .ok (right, s1) =>
        match popIntChecked s1 with
        | .error e => .error e
        | .ok (left, s2) =>
          if right = 0 then .error .divisionByZero
          else .ok (.integer (left.tmod right) :: s2, env)
    | .power =>
      match popTwo stack with
      | .error e => .error e
      | .ok (base, exponent, s2) =>
        match base, exponent with
        | .integer b, .integer e =>
          if e < 0 then
            match toUnsignedInt (-e) with
            | .error err => .error err
            | .ok n =>
              if (b : ℚ) = 0 then .error .realDivisionByZero
              else .ok (.real (1 / (b : ℚ) ^ n) :: s2, env)
          else
            match toUnsignedInt e with
            | .error err => .error err
            | .ok n => .ok (.integer (b ^ n) :: s2, env)
        | _, _ =>
          match coerceReal base with
          | .error e => .error e
          | .ok bq =>
            match coerceReal exponent with
            | .error e => .error e
            | .ok pq => .ok (.real (realPow bq pq) :: s2, env)
    | .logAnd =>
      match popTwo stack with
      | .error e => .error e
      | .ok (left, right, s2) =>
        match boolBinary (fun a b => a && b) left right with
        | .error e => .error e
        | .ok r => .ok (r :: s2, env)
    | .logOr =>
      match popTwo stack with
      | .error e => .error e
      | .ok (left, right, s2) =>
        match boolBinary (fun a b => a || b) left right with
        | .error e => .error e
        | .ok r => .ok (r :: s2, env)
    | .logNot =>
      match popUnchecked stack with
      | .error e => .error e
      | .ok (v, rest) =>
        match v with
        | .var n =>
          match env n with
          | none => .error .uninitializedVariable
          | some (Val.boolean b) => .ok (.boolean (!b) :: rest, env)
          | some _ => .error .booleanOperandRequired
        | .boolean b => .ok (.boolean (!b) :: rest, env)
        | _ => .error .booleanOperandRequired
    | .nand =>
      match popTwo stack with
      | .error e => .error e
      | .ok (left, right, s2) =>
        match boolBinary (fun a b => !(a && b)) left right with
        | .error e => .error e
        | .ok r => .ok (r :: s2, env)
    | .nor =>
      match popTwo stack with
      | .error e => .error e
      | .ok (left, right, s2) =>
        match boolBinary (fun a b => !(a || b)) left right with
        | .error e => .error e
        | .ok r => .ok (r :: s2, env)
    | .xor =>
      match popTwo stack with
      | .error e => .error e
      | .ok (left, right, s2) =>
        match boolBinary (fun a b => a != b) left right with
        | .error e => .error e
        | .ok r => .ok (r :: s2, env)
    | .xnor =>
      match popTwo stack with
      | .error e => .error e
      | .ok (left, right, s2) =>
        match boolBinary (fun a b => a == b) left right with
        | .error e => .error e
        | .ok r => .ok (r :: s2, env)
    | .equality =>
      match popTwo stack with
      | .error e => .error e
      | .ok (left, right, s2) =>
        match comparisonChain (fun a b => decide (a = b)) (fun a b => decide (a = b))
            (fun a b => decide (a = b)) left right with
        | .error e => .error e
        | .ok r => .ok (r :: s2, env)
    | .inequality =>
      match popTwo stack with
      | .error e => .error e
      | .ok (left, right, s2) =>
        match comparisonChain (fun a b => decide (a ≠ b)) (fun a b => decide (a ≠ b))
            (fun a b => decide (a ≠ b)) left right with
        | .error e => .error e
        | .ok r => .ok (r :: s2, env)
    | .greater =>
      match popTwo stack with
      | .error e => .error e
      | .ok (left, right, s2) =>
        match comparisonChain (fun a b => decide (a > b)) (fun a b => decide (a > b))
            (fun a b => decide ((if a then (1 : Int) else 0) > (if b then (1 : Int) else 0)))
            left right with
        | .error e => .error e
        | .ok r => .ok (r :: s2, env)
    | .greaterEqual =>
      match popTwo stack with
      | .error e => .error e
      | .ok (left, right, s2) =>
        match comparisonChain (fun a b => decide (a ≥ b)) (fun a b => decide (a ≥ b))
            (fun a b => decide ((if a then (1 : Int) else 0) ≥ (if b then (1 : Int) else 0)))
            left right with
        | .error e => .error e
        | .ok r => .ok (r :: s2, env)
    | .less =>
      match popTwo stack with
      | .error e => .error e
      | .ok (left, right, s2) =>
        match comparisonChain (fun a b => decide (a < b)) (fun a b => decide (a < b))
            (fun a b => decide ((if a then (1 : Int) else 0) < (if b then (1 : Int) else 0)))
            left right with
        | .error e => .error e
        | .ok r => .ok (r :: s2, env)
    | .lessEqual =>
      match popTwo stack with
      | .error e => .error e
      | .ok (left, right, s2) =>
        match comparisonChain (fun a b => decide (a ≤ b)) (fun a b => decide (a ≤ b))
            (fun a b => decide ((if a then (1 : Int) else 0) ≤ (if b then (1 : Int) else 0)))
            left right with
        | .error e => .error e
        | .ok r => .ok (r :: s2, env)
    | .factorial =>
      match popIntChecked stack with
      | .error e => .error e
      | .ok (v, rest) =>
        match integerFactorial v with
        | .error e => .error e
        | .ok r => .ok (.integer r :: rest, env)
  | (stack, env), .function f =>
    match f with
    | .abs =>
      match popUnchecked stack with
      | .error e => .error e
      | .ok (v, rest) =>
        match v with
        | .integer i => .ok (.integer |i| :: rest, env)
        | .real q => .ok (.real |q| :: rest, env)
        | _ => .error .invalidOperandAbs
    | .max =>
      match popTwo stack with
      | .error e => .error e
      | .ok (left, right, s2) =>
        match promoteArith (fun a b => max a b) (fun a b => max a b) left right with
        | .error e => .error e
        | .ok r => .ok (r :: s2, env)
    | .min =>
      match popTwo stack with
      | .error e => .error e
      | .ok (left, right, s2) =>
        match promoteArith (fun a b => min a b) (fun a b => min a b) left right with
        | .error e => .error e
        | .ok r => .ok (r :: s2, env)
    | .pow =>
      match popTwo stack with
      | .error e => .error e
      | .ok (base, exponent, s2) =>
        match base, exponent with
        | .integer b, .integer e =>
          match toUnsignedInt e with
          | .error err => .error err
          | .ok n => .ok (.integer (b ^ n) :: s2, env)
        | _, _ =>
          match coerceReal base with
          | .error e => .error e
          | .ok bq =>
            match coerceReal exponent with
            | .error e => .error e
            | .ok pq => .ok (.real (realPow bq pq) :: s2, env)
  | (_, _), .leftParen => .error .unknownToken
  | (_, _), .rightParen => .error .unknownToken
  | (_, _), .argSeparator => .error .unknownToken

/-- RPNEvaluator::evaluate: reject the empty sequence up front, scan the
postfix tokens over an initially empty value stack, then require exactly one
entry to remain (the size-not-one check throws the too-many-operands error). -/
def evaluate (realPow : ℚ → ℚ → ℚ) (env : Env) (rpnExpression : List Token) :
    Except EvalErr (Operand × Env) :=
  match rpnExpression with
  | [] => .error .insufficientOperands
  | _ =>
    match rpnExpression.foldlM (evalToken realPow) ([], env) with
    | .error e => .error e
    | .ok (stack, env') =>
      match stack with
      | [result] => .ok (result, env')
      | _ => .error .tooManyOperands

/- ===================== Supporting lemmas ===================== -/

/-- The running product result *= i for i = 1..m computes m factorial. -/
theorem rangeProd_eq_factorial (m : Nat) :
    (List.range m).foldl (fun (acc : Int) (k : Nat) => acc * ((k : Int) + 1)) 1 =
      (Nat.factorial m : Int) := by
  induction m with
  | zero => rfl
  | succ m ih =>
    rw [List.range_succ, List.foldl_append, ih]
    show (Nat.factorial m : Int) * ((m : Int) + 1) = (Nat.factorial (m + 1) : Int)
    rw [Nat.factorial_succ]
    push_cast
    ring

/-- Closed form of Integer::factorial. -/
theorem integerFactorial_eq (n : Int) :
    integerFactorial n =
      if n < 0 then .error .negativeFactorial
      else .ok (Nat.factorial n.toNat : Int) := by
  unfold integerFactorial
  split
  · rfl
  · rw [rangeProd_eq_factorial]

/-- Dropping the redundant third disjunct of the source's pop test. -/
theorem boolPop_simplify (hp ep la ra : Bool) :
    (hp || (la && ep) || (ra && hp)) = (hp || (ep && la)) := by
  cases hp <;> cases ep <;> cases la <;> cases ra <;> rfl

/- ===================== Claim theorems ===================== -/

/-- C1 (code-bug demonstration): the spec requires every arithmetic/logical
consumer to read a Variable operand through to its held value, failing with
UninitializedVariable when none is set. In the code only the Not branch does
so (third and fourth conjuncts); the Addition branch never dereferences a
Variable: both with an initialized Variable (first conjunct) and with an
uninitialized one (second conjunct) it reaches the null result of a failed
dynamic_pointer_cast and crashes instead of producing the claimed value or
error. -/
theorem variable_deref_crash :
    (evaluate (fun _ _ => 0) (envSet emptyEnv "x" (Val.integer 1))
        [.operand (.var "x"), .operand (.integer 2), .operator .addition] = .error .crash)
    ∧ (evaluate (fun _ _ => 0) emptyEnv
        [.operand (.var "x"), .operand (.integer 2), .operator .addition] = .error .crash)
    ∧ (evaluate (fun _ _ => 0) emptyEnv
        [.operand (.var "x"), .operator .logNot] = .error .uninitializedVariable)
    ∧ (evaluate (fun _ _ => 0) (envSet emptyEnv "x" (Val.boolean true))
        [.operand (.var "x"), .operator .logNot] =
        .ok (.boolean false, envSet emptyEnv "x" (Val.boolean true))) :=
  ⟨rfl, rfl, rfl, rfl⟩

/-- C2 (code-bug demonstration): evaluate rejects the empty sequence with
InsufficientOperands (first conjunct), but an Operator token reached with
fewer stacked operands than its arity is not caught: the Addition branch
calls top() on an empty stack, which is undefined behavior (crash), both
with zero and with one available operand. -/
theorem arity_check_missing :
    (∀ (rp : ℚ → ℚ → ℚ) (env : Env), evaluate rp env [] = .error .insufficientOperands)
    ∧ (∀ (rp : ℚ → ℚ → ℚ) (env : Env),
        evaluate rp env [.operator .addition] = .error .crash)
    ∧ (∀ (rp : ℚ → ℚ → ℚ) (env : Env) (i : Int),
        evaluate rp env [.operand (.integer i), .operator .addition] = .error .crash) :=
  ⟨fun _ _ => rfl, fun _ _ => rfl, fun _ _ _ => rfl⟩

/-- C3: the source's pop condition equals "top has strictly higher
precedence, or equal precedence and the top is left-associative" (first
conjunct); consequently a - b - c parses to the postfix of (a-b)-c and
evaluates to (a-b)-c (second, third), and a ^ b ^ c parses to the postfix of
a^(b^c) (fourth) with 2^3^2 evaluating to 2^9 = 512, not (2^3)^2 = 64
(fifth). -/
theorem shuntingYard_tiebreak :
    (∀ topOp incoming : Op,
        stackPopCheck topOp incoming =
          (decide (prec topOp > prec incoming) ||
            (decide (prec topOp = prec incoming) &&
              decide (assocOf topOp = AssocClass.leftAssoc))))
    ∧ (∀ a b c : Int,
        parse [.operand (.integer a), .operator .subtraction, .operand (.integer b),
          .operator .subtraction, .operand (.integer c)] =
          .ok [.operand (.integer a), .operand (.integer b), .operator .subtraction,
            .operand (.integer c), .operator .subtraction])
    ∧ (∀ (rp : ℚ → ℚ → ℚ) (env : Env) (a b c : Int),
        evaluate rp env [.operand (.integer a), .operand (.integer b), .operator .subtraction,
          .operand (.integer c), .operator .subtraction] = .ok (.integer (a - b - c), env))
    ∧ (∀ a b c : Int,
        parse [.operand (.integer a), .operator .power, .operand (.integer b),
          .operator .power, .operand (.integer c)] =
          .ok [.operand (.integer a), .operand (.integer b), .operand (.integer c),
            .operator .power, .operator .power])
    ∧ (∀ (rp : ℚ → ℚ → ℚ) (env : Env),
        evaluate rp env [.operand (.integer 2), .operand (.integer 3), .operand (.integer 2),
          .operator .power, .operator .power] = .ok (.integer 512, env)) := by
  refine ⟨fun topOp incoming => ?_, fun a b c => rfl, fun rp env a b c => rfl,
    fun a b c => rfl, fun rp env => rfl⟩
  show (decide (prec topOp > prec incoming) ||
      (decide (assocOf topOp = AssocClass.leftAssoc) && decide (prec topOp = prec incoming)) ||
      (decide (assocOf topOp = AssocClass.rightAssoc) && decide (prec topOp > prec incoming))) = _
  exact boolPop_simplify _ _ _ _

/-- C4 counterexample: with the left operand the Variable x (so the claim
asserts the right operand's current value is stored and x is returned), and
the right operand the Variable y holding Integer 5, the Assignment branch
fails with the unsupported-assignment-operand-type error: the right operand
is type-probed only as Boolean, Integer or Real, never as a Variable. -/
theorem assignment_variable_rhs_counterexample :
    evaluate (fun _ _ => 0) (envSet emptyEnv "y" (Val.integer 5))
      [.operand (.var "x"), .operand (.var "y"), .operator .assignment] =
      .error .unsupportedAssignmentType := rfl

/-- C4 amended: a non-Variable left operand fails with the
assignment-to-non-variable error; a Variable left operand with a Boolean,
Integer or Real right operand stores a copy of that value into the Variable
and returns the Variable itself; a Variable right operand fails with an
unsupported-assignment-operand-type error. -/
theorem assignment_semantics_amended :
    (∀ (rp : ℚ → ℚ → ℚ) (env : Env) (i j : Int),
        evaluate rp env [.operand (.integer i), .operand (.integer j), .operator .assignment] =
          .error .assignmentToNonVariable)
    ∧ (∀ (rp : ℚ → ℚ → ℚ) (env : Env) (name : String) (v : Val),
        evaluate rp env [.operand (.var name), .operand v.toOperand, .operator .assignment] =
          .ok (.var name, envSet env name v))
    ∧ (∀ (rp : ℚ → ℚ → ℚ) (env : Env) (n1 n2 : String),
        evaluate rp env [.operand (.var n1), .operand (.var n2), .operator .assignment] =
          .error .unsupportedAssignmentType) := by
  refine ⟨fun _ _ _ _ => rfl, fun rp env name v => ?_, fun _ _ _ _ => rfl⟩
  cases v <;> rfl

/-- C5: on two Integer operands with a negative exponent of magnitude below
2^32 and a nonzero base, the Power branch promotes to Real and returns the
reciprocal 1 / base^(magnitude of exponent) (first conjunct); for any
negative Integer exponent it never produces an Integer result, i.e. the
native unsigned-exponent path is never taken (second conjunct). -/
theorem power_negative_exponent :
    (∀ (rp : ℚ → ℚ → ℚ) (env : Env) (b e : Int), e < 0 → -e < 2 ^ 32 → b ≠ 0 →
        evaluate rp env [.operand (.integer b), .operand (.integer e), .operator .power] =
          .ok (.real (1 / (b : ℚ) ^ (-e).toNat), env))
    ∧ (∀ (rp : ℚ → ℚ → ℚ) (env : Env) (b e : Int), e < 0 → ∀ (i : Int) (env' : Env),
        evaluate rp env [.operand (.integer b), .operand (.integer e), .operator .power] ≠
          .ok (.integer i, env')) := by
  constructor
  · intro rp env b e he hbound hb
    have h0 : 0 ≤ -e := by omega
    norm_num at hbound
    have hq : ((b : ℚ) = 0) = False := by
      simp [Int.cast_eq_zero, hb]
    simp [evaluate, evalToken, popTwo, popUnchecked, toUnsignedInt, he, h0, hbound, hq,
      List.foldlM, bind, Except.bind, pure, Except.pure]
  · intro rp env b e he i env'
    have h0 : 0 ≤ -e := by omega
    by_cases hbound : -e < (4294967296 : Int)
    · by_cases hq : (b : ℚ) = 0
      · simp [evaluate, evalToken, popTwo, popUnchecked, toUnsignedInt, he, h0, hbound, hq,
          List.foldlM, bind, Except.bind, pure, Except.pure]
      · simp [evaluate, evalToken, popTwo, popUnchecked, toUnsignedInt, he, h0, hbound, hq,
          List.foldlM, bind, Except.bind, pure, Except.pure]
    · simp [evaluate, evalToken, popTwo, popUnchecked, toUnsignedInt, he, h0, hbound,
        List.foldlM, bind, Except.bind, pure, Except.pure]

/-- C5 witness: 2 to the power -3 promotes to Real and yields the reciprocal
1/8. -/
theorem power_negative_exponent_witness :
    evaluate (fun _ _ => 0) emptyEnv
      [.operand (.integer 2), .operand (.integer (-3)), .operator .power] =
      .ok (.real (1 / (2 : ℚ) ^ (-(-3 : Int)).toNat), emptyEnv) :=
  power_negative_exponent.1 (fun _ _ => 0) emptyEnv 2 (-3) (by norm_num) (by norm_num)
    (by norm_num)

/-- C6: Division and Modulus fail with the division-by-zero error exactly
when the right operand is 0 (the evaluator checks Division explicitly in
both the Integer and the Real branch; for Modulus the zero divisor aborts in
the bignum remainder itself), and otherwise return the truncated quotient,
the remainder, or the Real quotient after promotion. -/
theorem division_modulus_by_zero :
    (∀ (rp : ℚ → ℚ → ℚ) (env : Env) (a b : Int),
        evaluate rp env [.operand (.integer a), .operand (.integer b), .operator .division] =
          if b = 0 then .error .divisionByZero else .ok (.integer (a.tdiv b), env))
    ∧ (∀ (rp : ℚ → ℚ → ℚ) (env : Env) (a b : Int),
        evaluate rp env [.operand (.integer a), .operand (.integer b), .operator .modulus] =
          if b = 0 then .error .divisionByZero else .ok (.integer (a.tmod b), env))
    ∧ (∀ (rp : ℚ → ℚ → ℚ) (env : Env) (p q : ℚ),
        evaluate rp env [.operand (.real p), .operand (.real q), .operator .division] =
          if q = 0 then .error .divisionByZero else .ok (.real (p / q), env))
    ∧ (∀ (rp : ℚ → ℚ → ℚ) (env : Env) (a : Int) (q : ℚ),
        evaluate rp env [.operand (.integer a), .operand (.real q), .operator .division] =
          if q = 0 then .error .divisionByZero else .ok (.real ((a : ℚ) / q), env))
    ∧ (∀ (rp : ℚ → ℚ → ℚ) (env : Env) (p : ℚ) (b : Int),
        evaluate rp env [.operand (.real p), .operand (.integer b), .operator .division] =
          if b = 0 then .error .divisionByZero else .ok (.real (p / (b : ℚ)), env)) := by
  refine ⟨fun rp env a b => ?_, fun rp env a b => ?_, fun rp env p q => ?_,
    fun rp env a q => ?_, fun rp env p b => ?_⟩
  · by_cases hb : b = 0 <;>
      simp [evaluate, evalToken, popTwo, popUnchecked, coerceReal, hb,
        List.foldlM, bind, Except.bind, pure, Except.pure]
  · by_cases hb : b = 0 <;>
      simp [evaluate, evalToken, popIntChecked, hb,
        List.foldlM, bind, Except.bind, pure, Except.pure]
  · by_cases hq : q = 0 <;>
      simp [evaluate, evalToken, popTwo, popUnchecked, coerceReal, hq,
        List.foldlM, bind, Except.bind, pure, Except.pure]
  · by_cases hq : q = 0 <;>
      simp [evaluate, evalToken, popTwo, popUnchecked, coerceReal, hq,
        List.foldlM, bind, Except.bind, pure, Except.pure]
  · by_cases hb : b = 0
    · have hq : ((b : ℚ) = 0) = True := by simp [hb]
      simp [evaluate, evalToken, popTwo, popUnchecked, coerceReal, hb, hq,
        List.foldlM, bind, Except.bind, pure, Except.pure]
    · have hq : ((b : ℚ) = 0) = False := by simp [Int.cast_eq_zero, hb]
      simp [evaluate, evalToken, popTwo, popUnchecked, coerceReal, hb, hq,
        List.foldlM, bind, Except.bind, pure, Except.pure]

/-- C7: uniform numeric promotion in the arithmetic branches. Both-Integer
pairs compute and return Integer; any pair with a Real computes and returns
Real, the Integer side promoted, shown for Addition, Subtraction and
Multiplication in all four type combinations and for Division through its
zero-guarded branches; in particular Integer 1 + Real 5/2 gives Real 7/2 and
Integer 4 / Integer 2 gives Integer 2. -/
theorem arithmetic_type_promotion :
    (∀ (rp : ℚ → ℚ → ℚ) (env : Env) (a b : Int),
        evaluate rp env [.operand (.integer a), .operand (.integer b), .operator .addition] =
          .ok (.integer (a + b), env))
    ∧ (∀ (rp : ℚ → ℚ → ℚ) (env : Env) (a : Int) (q : ℚ),
        evaluate rp env [.operand (.integer a), .operand (.real q), .operator .addition] =
          .ok (.real ((a : ℚ) + q), env))
    ∧ (∀ (rp : ℚ → ℚ → ℚ) (env : Env) (p : ℚ) (b : Int),
        evaluate rp env [.operand (.real p), .operand (.integer b), .operator .addition] =
          .ok (.real (p + (b : ℚ)), env))
    ∧ (∀ (rp : ℚ → ℚ → ℚ) (env : Env) (p q : ℚ),
        evaluate rp env [.operand (.real p), .operand (.real q), .operator .addition] =
          .ok (.real (p + q), env))
    ∧ (∀ (rp : ℚ → ℚ → ℚ) (env : Env) (a b : Int),
        evaluate rp env [.operand (.integer a), .operand (.integer b), .operator .subtraction] =
          .ok (.integer (a - b), env))
    ∧ (∀ (rp : ℚ → ℚ → ℚ) (env : Env) (a : Int) (q : ℚ),
        evaluate rp env [.operand (.integer a), .operand (.real q), .operator .subtraction] =
          .ok (.real ((a : ℚ) - q), env))
    ∧ (∀ (rp : ℚ → ℚ → ℚ) (env : Env) (a b : Int),
        evaluate rp env [.operand (.integer a), .operand (.integer b), .operator .multiplication] =
          .ok (.integer (a * b), env))
    ∧ (∀ (rp : ℚ → ℚ → ℚ) (env : Env) (a : Int) (q : ℚ),
        evaluate rp env [.operand (.integer a), .operand (.real q), .operator .multiplication] =
          .ok (.real ((a : ℚ) * q), env))
    ∧ (∀ (rp : ℚ → ℚ → ℚ) (env : Env),
        evaluate rp env [.operand (.integer 1), .operand (.real (5 / 2)), .operator .addition] =
          .ok (.real (7 / 2), env))
    ∧ (∀ (rp : ℚ → ℚ → ℚ) (env : Env),
        evaluate rp env [.operand (.integer 4), .operand (.integer 2), .operator .division] =
          .ok (.integer 2, env))
    ∧ (∀ (rp : ℚ → ℚ → ℚ) (env : Env),
        evaluate rp env [.operand (.integer 1), .operand (.integer 0), .operator .division] =
          .error .divisionByZero) := by
  refine ⟨fun _ _ _ _ => rfl, fun _ _ _ _ => rfl, fun _ _ _ _ => rfl, fun _ _ _ _ => rfl,
    fun _ _ _ _ => rfl, fun _ _ _ _ => rfl, fun _ _ _ _ => rfl, fun _ _ _ _ => rfl,
    fun _ _ => ?_, fun _ _ => rfl, fun _ _ => rfl⟩
  show Except.ok (Operand.real ((1 : ℚ) + 5 / 2), _) = _
  norm_num

/-- C9: the Factorial operator fails with the negative-factorial domain error
on a negative Integer operand, and on a non-negative operand n returns
n factorial, the product 1 * 2 * ... * n, with 0 mapping to 1. -/
theorem factorial_domain_and_value :
    ∀ (rp : ℚ → ℚ → ℚ) (env : Env) (n : Int),
      evaluate rp env [.operand (.integer n), .operator .factorial] =
        if n < 0 then .error .negativeFactorial
        else .ok (.integer (Nat.factorial n.toNat : Int), env) := by
  intro rp env n
  by_cases hn : n < 0 <;>
    simp [evaluate, evalToken, popIntChecked, integerFactorial_eq, hn,
      List.foldlM, bind, Except.bind, pure, Except.pure]

/-- C10: the Equality and Inequality branches reject every pair mixing a
Boolean with an Integer or Real with the unsupported-operand-types error (the
first eight conjuncts), while same-type pairs compare directly and mixed
Integer and Real pairs compare after promoting the Integer to Real (the
remaining conjuncts). -/
theorem equality_boolean_mixing :
    (∀ (rp : ℚ → ℚ → ℚ) (env : Env) (b : Bool) (i : Int),
        evaluate rp env [.operand (.boolean b), .operand (.integer i), .operator .equality] =
          .error .unsupportedComparison)
    ∧ (∀ (rp : ℚ → ℚ → ℚ) (env : Env) (i : Int) (b : Bool),
        evaluate rp env [.operand (.integer i), .operand (.boolean b), .operator .equality] =
          .error .unsupportedComparison)
    ∧ (∀ (rp : ℚ → ℚ → ℚ) (env : Env) (b : Bool) (q : ℚ),
        evaluate rp env [.operand (.boolean b), .operand (.real q), .operator .equality] =
          .error .unsupportedComparison)
    ∧ (∀ (rp : ℚ → ℚ → ℚ) (env : Env) (q : ℚ) (b : Bool),
        evaluate rp env [.operand (.real q), .operand (.boolean b), .operator .equality] =
          .error .unsupportedComparison)
    ∧ (∀ (rp : ℚ → ℚ → ℚ) (env : Env) (b : Bool) (i : Int),
        evaluate rp env [.operand (.boolean b), .operand (.integer i), .operator .inequality] =
          .error .unsupportedComparison)
    ∧ (∀ (rp : ℚ → ℚ → ℚ) (env : Env) (i : Int) (b : Bool),
        evaluate rp env [.operand (.integer i), .operand (.boolean b), .operator .inequality] =
          .error .unsupportedComparison)
    ∧ (∀ (rp : ℚ → ℚ → ℚ) (env : Env) (b : Bool) (q : ℚ),
        evaluate rp env [.operand (.boolean b), .operand (.real q), .operator .inequality] =
          .error .unsupportedComparison)
    ∧ (∀ (rp : ℚ → ℚ → ℚ) (env : Env) (q : ℚ) (b : Bool),
        evaluate rp env [.operand (.real q), .operand (.boolean b), .operator .inequality] =
          .error .unsupportedComparison)
    ∧ (∀ (rp : ℚ → ℚ → ℚ) (env : Env) (a b : Int),
        evaluate rp env [.operand (.integer a), .operand (.integer b), .operator .equality] =
          .ok (.boolean (decide (a = b)), env))
    ∧ (∀ (rp : ℚ → ℚ → ℚ) (env : Env) (p q : ℚ),
        evaluate rp env [.operand (.real p), .operand (.real q), .operator .equality] =
          .ok (.boolean (decide (p = q)), env))
    ∧ (∀ (rp : ℚ → ℚ → ℚ) (env : Env) (x y : Bool),
        evaluate rp env [.operand (.boolean x), .operand (.boolean y), .operator .equality] =
          .ok (.boolean (decide (x = y)), env))
    ∧ (∀ (rp : ℚ → ℚ → ℚ) (env : Env) (a : Int) (q : ℚ),
        evaluate rp env [.operand (.integer a), .operand (.real q), .operator .equality] =
          .ok (.boolean (decide ((a : ℚ) = q)), env))
    ∧ (∀ (rp : ℚ → ℚ → ℚ) (env : Env) (p : ℚ) (b : Int),
        evaluate rp env [.operand (.real p), .operand (.integer b), .operator .equality] =
          .ok (.boolean (decide (p = (b : ℚ))), env))
    ∧ (∀ (rp : ℚ → ℚ → ℚ) (env : Env) (a b : Int),
        evaluate rp env [.operand (.integer a), .operand (.integer b), .operator .inequality] =
          .ok (.boolean (decide (a ≠ b)), env))
    ∧ (∀ (rp : ℚ → ℚ → ℚ) (env : Env) (a : Int) (q : ℚ),
        evaluate rp env [.operand (.integer a), .operand (.real q), .operator .inequality] =
          .ok (.boolean (decide ((a : ℚ) ≠ q)), env))
    ∧ (∀ (rp : ℚ → ℚ → ℚ) (env : Env) (p : ℚ) (b : Int),
        evaluate rp env [.operand (.real p), .operand (.integer b), .operator .inequality] =
          .ok (.boolean (decide (p ≠ (b : ℚ))), env)) :=
  ⟨fun _ _ _ _ => rfl, fun _ _ _ _ => rfl, fun _ _ _ _ => rfl, fun _ _ _ _ => rfl,
    fun _ _ _ _ => rfl, fun _ _ _ _ => rfl, fun _ _ _ _ => rfl, fun _ _ _ _ => rfl,
    fun _ _ _ _ => rfl, fun _ _ _ _ => rfl, fun _ _ _ _ => rfl, fun _ _ _ _ => rfl,
    fun _ _ _ _ => rfl, fun _ _ _ _ => rfl, fun _ _ _ _ => rfl, fun _ _ _ _ => rfl⟩

/- ============== Parser lemmas supporting claim C8 ============== -/

/-- The operator pop loop never pops past a non-Operator token, so any count
of tokens that is blind to Operator tokens is preserved on the stack. -/
theorem opPopLoop_fst_countP (incoming : Op) (p : Token → Bool)
    (hp : ∀ op : Op, p (.operator op) = false) :
    ∀ (st out : List Token), ((opPopLoop incoming st out).1).countP p = st.countP p := by
  intro st
  induction st with
  | nil => intro out; rfl
  | cons t rest ih =>
    intro out
    cases t with
    | operator topOp =>
      by_cases hpop : stackPopCheck topOp incoming
      · simp [opPopLoop, hpop, ih, List.countP_cons, hp]
      · simp [opPopLoop, hpop]
    | operand o => rfl
    | function f => rfl
    | leftParen => rfl
    | rightParen => rfl
    | argSeparator => rfl

/-- Every token left on the stack by the operator pop loop came from the
original stack. -/
theorem opPopLoop_fst_subset (incoming : Op) :
    ∀ (st out : List Token) (x : Token), x ∈ (opPopLoop incoming st out).1 → x ∈ st := by
  intro st
  induction st with
  | nil => intro out x hx; exact hx
  | cons t rest ih =>
    intro out x hx
    cases t with
    | operator topOp =>
      by_cases hpop : stackPopCheck topOp incoming
      · simp only [opPopLoop, hpop, if_true] at hx
        exact List.mem_cons_of_mem _ (ih _ x hx)
      · simpa [opPopLoop, hpop] using hx
    | operand o => exact hx
    | function f => exact hx
    | leftParen => exact hx
    | rightParen => exact hx
    | argSeparator => exact hx

/-- A stack with no LeftParenthesis makes the RightParenthesis loop fail. -/
theorem popUntilLeftParen_zero :
    ∀ (st : List Token), st.countP isLeftParenTok = 0 →
      ∀ out, popUntilLeftParen st out = .error .mismatchedParenthesis := by
  intro st
  induction st with
  | nil => intro _ out; rfl
  | cons t rest ih =>
    intro h out
    rw [List.countP_cons] at h
    have ht : isLeftParenTok t = false := by
      by_contra hc
      simp [eq_true_of_ne_false hc] at h
    have hrest : rest.countP isLeftParenTok = 0 := by
      simpa [ht] using h
    simp only [popUntilLeftParen, ht, Bool.false_eq_true, if_false]
    exact ih hrest _

/-- A stack holding a LeftParenthesis makes the RightParenthesis loop
succeed; the first LeftParenthesis is removed and everything kept came from
the original stack. -/
theorem popUntilLeftParen_pos :
    ∀ (st : List Token), 0 < st.countP isLeftParenTok →
      ∀ out, ∃ st' out', popUntilLeftParen st out = .ok (st', out') ∧
        st'.countP isLeftParenTok + 1 = st.countP isLeftParenTok ∧
        ∀ x ∈ st', x ∈ st := by
  intro st
  induction st with
  | nil => intro h; simp at h
  | cons t rest ih =>
    intro h out
    by_cases ht : isLeftParenTok t = true
    · refine ⟨rest, out, ?_, ?_, ?_⟩
      · simp only [popUntilLeftParen, ht, if_true]
      · simp [List.countP_cons, ht]
      · intro x hx; exact List.mem_cons_of_mem _ hx
    · have ht' : isLeftParenTok t = false := by
        simpa using ht
      have hrest : 0 < rest.countP isLeftParenTok := by
        simpa [List.countP_cons, ht'] using h
      obtain ⟨st', out', heq, hcnt, hmem⟩ := ih hrest (out ++ [t])
      refine ⟨st', out', ?_, ?_, ?_⟩
      · simp only [popUntilLeftParen, ht', Bool.false_eq_true, if_false]
        exact heq
      · simpa [List.countP_cons, ht'] using hcnt
      · intro x hx; exact List.mem_cons_of_mem _ (hmem x hx)

/-- A stack with no LeftParenthesis makes the ArgumentSeparator loop fail
with the mismatched-or-misplaced error. -/
theorem popUntilLeftParenKeep_zero :
    ∀ (st : List Token), st.countP isLeftParenTok = 0 →
      ∀ out, popUntilLeftParenKeep st out = .error .misplacedSeparator := by
  intro st
  induction st with
  | nil => intro _ out; rfl
  | cons t rest ih =>
    intro h out
    rw [List.countP_cons] at h
    have ht : isLeftParenTok t = false := by
      by_contra hc
      simp [eq_true_of_ne_false hc] at h
    have hrest : rest.countP isLeftParenTok = 0 := by
      simpa [ht] using h
    simp only [popUntilLeftParenKeep, ht, Bool.false_eq_true, if_false]
    exact ih hrest _

/-- A stack holding a LeftParenthesis makes the ArgumentSeparator loop
succeed with the LeftParenthesis kept, so the count is preserved. -/
theorem popUntilLeftParenKeep_pos :
    ∀ (st : List Token), 0 < st.countP isLeftParenTok →
      ∀ out, ∃ st' out', popUntilLeftParenKeep st out = .ok (st', out') ∧
        st'.countP isLeftParenTok = st.countP isLeftParenTok ∧
        ∀ x ∈ st', x ∈ st := by
  intro st
  induction st with
  | nil => intro h; simp at h
  | cons t rest ih =>
    intro h out
    by_cases ht : isLeftParenTok t = true
    · exact ⟨t :: rest, out, by simp only [popUntilLeftParenKeep, ht, if_true], rfl,
        fun x hx => hx⟩
    · have ht' : isLeftParenTok t = false := by
        simpa using ht
      have hrest : 0 < rest.countP isLeftParenTok := by
        simpa [List.countP_cons, ht'] using h
      obtain ⟨st', out', heq, hcnt, hmem⟩ := ih hrest (out ++ [t])
      refine ⟨st', out', ?_, ?_, ?_⟩
      · simp only [popUntilLeftParenKeep, ht', Bool.false_eq_true, if_false]
        exact heq
      · simpa [List.countP_cons, ht'] using hcnt
      · intro x hx; exact List.mem_cons_of_mem _ (hmem x hx)

/-- On a stack free of RightParenthesis tokens, the end-of-input drain fails
with MismatchedParenthesis exactly when a LeftParenthesis remains. -/
theorem drainStack_err_iff :
    ∀ (st : List Token), (∀ t ∈ st, t ≠ Token.rightParen) →
      ∀ out, (drainStack st out = .error .mismatchedParenthesis ↔
        0 < st.countP isLeftParenTok) := by
  intro st
  induction st with
  | nil =>
    intro _ out
    constructor
    · intro h; exact absurd h (by simp [drainStack])
    · intro h; simp at h
  | cons t rest ih =>
    intro hnr out
    cases t with
    | leftParen =>
      constructor
      · intro _; simp [List.countP_cons, isLeftParenTok]
      · intro _; rfl
    | rightParen => exact absurd rfl (hnr _ (by simp))
    | operand o =>
      simpa only [drainStack, isParenTok, Bool.false_eq_true, if_false, List.countP_cons,
        isLeftParenTok, if_false, Nat.add_zero] using
        ih (fun x hx => hnr x (List.mem_cons_of_mem _ hx)) (out ++ [.operand o])
    | operator op =>
      simpa only [drainStack, isParenTok, Bool.false_eq_true, if_false, List.countP_cons,
        isLeftParenTok, if_false, Nat.add_zero] using
        ih (fun x hx => hnr x (List.mem_cons_of_mem _ hx)) (out ++ [.operator op])
    | function f =>
      simpa only [drainStack, isParenTok, Bool.false_eq_true, if_false, List.countP_cons,
        isLeftParenTok, if_false, Nat.add_zero] using
        ih (fun x hx => hnr x (List.mem_cons_of_mem _ hx)) (out ++ [.function f])
    | argSeparator =>
      simpa only [drainStack, isParenTok, Bool.false_eq_true, if_false, List.countP_cons,
        isLeftParenTok, if_false, Nat.add_zero] using
        ih (fun x hx => hnr x (List.mem_cons_of_mem _ hx)) (out ++ [.argSeparator])

/-- The end-of-input drain never reports the separator error. -/
theorem drainStack_not_misplaced :
    ∀ (st out : List Token), drainStack st out ≠ .error .misplacedSeparator := by
  intro st
  induction st with
  | nil => intro out h; exact absurd h (by simp [drainStack])
  | cons t rest ih =>
    intro out h
    by_cases hp : isParenTok t = true
    · rw [drainStack, if_pos hp] at h
      exact absurd h (by simp)
    · rw [drainStack, if_neg hp] at h
      exact ih _ h

/-- When the popped prefix is LeftParenthesis-free, the RightParenthesis loop
pops exactly that prefix to the output and discards the LeftParenthesis. -/
theorem popUntilLeftParen_append :
    ∀ (ops : List Token), (∀ t ∈ ops, isLeftParenTok t = false) →
      ∀ (rest out : List Token),
        popUntilLeftParen (ops ++ Token.leftParen :: rest) out = .ok (rest, out ++ ops) := by
  intro ops
  induction ops with
  | nil => intro _ rest out; simp [popUntilLeftParen, isLeftParenTok]
  | cons t ops ih =>
    intro h rest out
    have ht : isLeftParenTok t = false := h t (by simp)
    rw [List.cons_append, popUntilLeftParen]
    rw [if_neg (by simp [ht])]
    rw [ih (fun x hx => h x (List.mem_cons_of_mem _ hx)) rest (out ++ [t])]
    simp

/-- The scan loop reports a mismatched-parenthesis-family error exactly under
the spec's condition, relative to the number of LeftParenthesis entries the
stack already holds. -/
theorem parseGo_mismatch_iff :
    ∀ (ts st out : List Token), (∀ t ∈ st, t ≠ Token.rightParen) →
      ((parseGo ts st out = .error .mismatchedParenthesis ∨
        parseGo ts st out = .error .misplacedSeparator) ↔
        specParenMismatch (st.countP isLeftParenTok) ts = true) := by
  intro ts
  induction ts with
  | nil =>
    intro st out hnr
    show (drainStack st out = _ ∨ drainStack st out = _) ↔ _
    rw [specParenMismatch]
    constructor
    · rintro (h | h)
      · exact decide_eq_true ((drainStack_err_iff st hnr out).mp h)
      · exact absurd h (drainStack_not_misplaced st out)
    · intro h
      exact Or.inl ((drainStack_err_iff st hnr out).mpr (of_decide_eq_true h))
  | cons t ts ih =>
    intro st out hnr
    cases t with
    | operand o =>
      simpa only [parseGo, specParenMismatch] using ih st (out ++ [.operand o]) hnr
    | operator op =>
      rcases hpair : opPopLoop op st out with ⟨st1, out1⟩
      have hcnt : st1.countP isLeftParenTok = st.countP isLeftParenTok := by
        have h := opPopLoop_fst_countP op isLeftParenTok (fun _ => rfl) st out
        rw [hpair] at h
        exact h
      have hnr' : ∀ x ∈ Token.operator op :: st1, x ≠ Token.rightParen := by
        intro x hx
        rcases List.mem_cons.mp hx with h | h
        · subst h; simp
        · refine hnr x ?_
          have hsub := opPopLoop_fst_subset op st out x
          rw [hpair] at hsub
          exact hsub h
      have hmain := ih (Token.operator op :: st1) out1 hnr'
      have hc2 : (Token.operator op :: st1).countP isLeftParenTok =
          st.countP isLeftParenTok := by
        simp [List.countP_cons, isLeftParenTok, hcnt]
      rw [hc2] at hmain
      simpa only [parseGo, hpair, specParenMismatch] using hmain
    | function f =>
      have hnr' : ∀ x ∈ Token.function f :: st, x ≠ Token.rightParen := by
        intro x hx
        rcases List.mem_cons.mp hx with h | h
        · subst h; simp
        · exact hnr x h
      have hmain := ih (Token.function f :: st) out hnr'
      have hc : (Token.function f :: st).countP isLeftParenTok =
          st.countP isLeftParenTok := by
        simp [List.countP_cons, isLeftParenTok]
      rw [hc] at hmain
      simpa only [parseGo, specParenMismatch] using hmain
    | leftParen =>
      have hnr' : ∀ x ∈ Token.leftParen :: st, x ≠ Token.rightParen := by
        intro x hx
        rcases List.mem_cons.mp hx with h | h
        · subst h; simp
        · exact hnr x h
      have hmain := ih (Token.leftParen :: st) out hnr'
      have hc : (Token.leftParen :: st).countP isLeftParenTok =
          st.countP isLeftParenTok + 1 := by
        simp [List.countP_cons, isLeftParenTok]
      rw [hc] at hmain
      simpa only [parseGo, specParenMismatch] using hmain
    | rightParen =>
      by_cases hz : st.countP isLeftParenTok = 0
      · have herr := popUntilLeftParen_zero st hz out
        simp [parseGo, herr, specParenMismatch, hz]
      · have hpos : 0 < st.countP isLeftParenTok := Nat.pos_of_ne_zero hz
        obtain ⟨st', out', heq, hcnt, hmem⟩ := popUntilLeftParen_pos st hpos out
        have hnr' : ∀ x ∈ st', x ≠ Token.rightParen := fun x hx => hnr x (hmem x hx)
        cases st' with
        | nil =>
          have hmain := ih [] out' (by intro x hx; exact absurd hx (List.not_mem_nil x))
          rw [List.countP_nil] at hmain
          rw [List.countP_nil] at hcnt
          have hd : st.countP isLeftParenTok - 1 = 0 := by omega
          rw [← hd] at hmain
          simpa [parseGo, heq, specParenMismatch, hz] using hmain
        | cons f rest =>
          by_cases hf : isFunctionTok f = true
          · have hlf : isLeftParenTok f = false := by
              cases f <;> simp_all [isFunctionTok, isLeftParenTok]
            have hmain := ih rest (out' ++ [f])
              (fun x hx => hnr' x (List.mem_cons_of_mem _ hx))
            rw [List.countP_cons] at hcnt
            rw [hlf] at hcnt
            have hd : rest.countP isLeftParenTok = st.countP isLeftParenTok - 1 := by
              simp at hcnt
              omega
            rw [hd] at hmain
            simpa [parseGo, heq, hf, specParenMismatch, hz] using hmain
          · have hmain := ih (f :: rest) out' hnr'
            have hd : (f :: rest).countP isLeftParenTok =
                st.countP isLeftParenTok - 1 := by omega
            rw [hd] at hmain
            simpa [parseGo, heq, hf, specParenMismatch, hz] using hmain
    | argSeparator =>
      by_cases hz : st.countP isLeftParenTok = 0
      · have herr := popUntilLeftParenKeep_zero st hz out
        simp [parseGo, herr, specParenMismatch, hz]
      · have hpos : 0 < st.countP isLeftParenTok := Nat.pos_of_ne_zero hz
        obtain ⟨st', out', heq, hcnt, hmem⟩ := popUntilLeftParenKeep_pos st hpos out
        have hnr' : ∀ x ∈ st', x ≠ Token.rightParen := fun x hx => hnr x (hmem x hx)
        have hmain := ih st' out' hnr'
        rw [hcnt] at hmain
        simpa [parseGo, heq, specParenMismatch, hz] using hmain

/-- C8: parse reports a mismatched-parenthesis-family error (the
MismatchedParenthesis message, or the combined mismatched-or-misplaced
message at the ArgumentSeparator site) exactly when a RightParenthesis or
ArgumentSeparator arrives with no LeftParenthesis on the operator stack, or
a LeftParenthesis survives to the end of the scan (first conjunct, against
the spec-worded condition specParenMismatch); and on a RightParenthesis the
LeftParenthesis-free stacked prefix is popped to the output, the matching
LeftParenthesis is discarded, and a Function token then on top of the stack
is popped to the output right after the argument list (second conjunct),
while a non-Function new top stays (third conjunct), including the
empty-stack case (fourth conjunct). -/
theorem paren_mismatch_characterization :
    (∀ input : List Token,
        ((parse input = .error .mismatchedParenthesis ∨
          parse input = .error .misplacedSeparator) ↔
          specParenMismatch 0 input = true))
    ∧ (∀ (ops rest output ts : List Token) (f : Fn),
        (∀ t ∈ ops, isLeftParenTok t = false) →
        parseGo (Token.rightParen :: ts)
            (ops ++ Token.leftParen :: Token.function f :: rest) output =
          parseGo ts rest (output ++ ops ++ [Token.function f]))
    ∧ (∀ (ops rest output ts : List Token) (t0 : Token),
        (∀ t ∈ ops, isLeftParenTok t = false) →
        isFunctionTok t0 = false →
        parseGo (Token.rightParen :: ts) (ops ++ Token.leftParen :: t0 :: rest) output =
          parseGo ts (t0 :: rest) (output ++ ops))
    ∧ (∀ (ops output ts : List Token),
        (∀ t ∈ ops, isLeftParenTok t = false) →
        parseGo (Token.rightParen :: ts) (ops ++ [Token.leftParen]) output =
          parseGo ts [] (output ++ ops)) := by
  refine ⟨fun input => ?_, fun ops rest output ts f h => ?_,
    fun ops rest output ts t0 h ht0 => ?_, fun ops output ts h => ?_⟩
  · have hmain := parseGo_mismatch_iff input [] []
      (by intro x hx; exact absurd hx (List.not_mem_nil x))
    rw [List.countP_nil] at hmain
    exact hmain
  · rw [show parseGo (Token.rightParen :: ts)
        (ops ++ Token.leftParen :: Token.function f :: rest) output =
        match popUntilLeftParen (ops ++ Token.leftParen :: Token.function f :: rest) output with
        | .error e => .error e
        | .ok (opStack', output') =>
          match opStack' with
          | g :: rest2 =>
            if isFunctionTok g then parseGo ts rest2 (output' ++ [g])
            else parseGo ts (g :: rest2) output'
          | [] => parseGo ts [] output' from rfl]
    rw [popUntilLeftParen_append ops h (Token.function f :: rest) output]
    simp [isFunctionTok]
  · rw [show parseGo (Token.rightParen :: ts) (ops ++ Token.leftParen :: t0 :: rest) output =
        match popUntilLeftParen (ops ++ Token.leftParen :: t0 :: rest) output with
        | .error e => .error e
        | .ok (opStack', output') =>
          match opStack' with
          | g :: rest2 =>
            if isFunctionTok g then parseGo ts rest2 (output' ++ [g])
            else parseGo ts (g :: rest2) output'
          | [] => parseGo ts [] output' from rfl]
    rw [popUntilLeftParen_append ops h (t0 :: rest) output]
    simp [ht0]
  · rw [show parseGo (Token.rightParen :: ts) (ops ++ [Token.leftParen]) output =
        match popUntilLeftParen (ops ++ [Token.leftParen]) output with
        | .error e => .error e
        | .ok (opStack', output') =>
          match opStack' with
          | g :: rest2 =>
            if isFunctionTok g then parseGo ts rest2 (output' ++ [g])
            else parseGo ts (g :: rest2) output'
          | [] => parseGo ts [] output' from rfl]
    rw [show (ops ++ [Token.leftParen] : List Token) = ops ++ Token.leftParen :: [] from rfl]
    rw [popUntilLeftParen_append ops h [] output]

/-- C8 witness: applying the characterization at concrete inputs: an
unclosed LeftParenthesis before Integer 1 is reported as mismatched, and a
RightParenthesis over the stack Addition, LeftParenthesis, Max pops Addition
to the output, discards the parenthesis and then pops the Max function. -/
theorem paren_mismatch_characterization_witness :
    ((parse [Token.leftParen, Token.operand (.integer 1)] =
        .error .mismatchedParenthesis ∨
      parse [Token.leftParen, Token.operand (.integer 1)] =
        .error .misplacedSeparator) ↔
      specParenMismatch 0 [Token.leftParen, Token.operand (.integer 1)] = true)
    ∧ parseGo [Token.rightParen]
        [Token.operator .addition, Token.leftParen, Token.function .max] [] =
      parseGo [] [] ([] ++ [Token.operator .addition] ++ [Token.function .max]) :=
  ⟨paren_mismatch_characterization.1 [Token.leftParen, Token.operand (.integer 1)],
    paren_mismatch_characterization.2.1 [Token.operator .addition] [] [] [] Fn.max
      (by intro t ht; simp at ht; rw [ht]; rfl)⟩
